import Mathlib

/-!
Shallow embedding of the SocialHub Pro Edition backend (src/main.py,
src/schemas.py): session-based authentication and plan-quota enforcement.

Timestamps are modelled as `Nat` seconds since the UTC epoch, so the UTC
calendar-day window of `get_daily_count` is `[(now / 86400) * 86400, … + 86400)`
and the 7-day session lifetime is `604800` seconds.  The document store `db`
is modelled as a `Store` of per-collection lists searched in insertion order
(Mongo `find_one` returns the first match in natural order).  `HTTPException`
is modelled as an `Err` value carrying the status code and detail string;
handlers return `Except Err α` together with the resulting store.
Randomness (`secrets.token_urlsafe`) and the current time
(`datetime.now(timezone.utc)`) are passed in as explicit parameters.
-/

namespace SocialHub

/-- Model of `HTTPException(status_code, detail)` as raised by the handlers. -/
structure Err where
  status : Nat
  detail : String
deriving Repr, DecidableEq

/-- Document of the `user` collection (src/schemas.py `User`, plus the `_id`
stamped by the store).  `plan` is `Option String` because a Mongo document may
lack the field; the code reads it as `user.get("plan", "free")`. -/
structure User where
  id : Nat
  name : String
  email : String
  password_hash : String
  plan : Option String
  avatar_url : Option String
deriving Repr, DecidableEq

/-- Document of the `session` collection (src/main.py `create_session`). -/
structure Session where
  token : String
  user_id : Nat
  created_at : Nat
  expires_at : Option Nat
deriving Repr, DecidableEq

/-- Document of the `uploadlog` collection (src/schemas.py `UploadLog`).
`created_at` is the creation timestamp that `get_daily_count` filters on;
it is stamped at insertion by `create_document` (database.py, a file not in
src/), modelled from the spec: §3 gives every UploadLog a creation
timestamp set when the record is created. -/
structure UploadLog where
  id : Nat
  user_id : Nat
  media_type : String
  caption : Option String
  platforms : List String
  status : String
  error : Option String
  created_at : Nat
deriving Repr, DecidableEq

/-- Document of the `aijob` collection (src/main.py `ai_edit`). -/
structure AiJob where
  id : Nat
  user_id : Nat
  source_url : Option String
  operations : List String
  status : String
deriving Repr, DecidableEq

/-- The persistent document store `db`, restricted to the collections the
core touches.  `nextId` models the store handing out fresh `_id`s. -/
structure Store where
  users : List User
  sessions : List Session
  uploadlogs : List UploadLog
  aijobs : List AiJob
  nextId : Nat
deriving Repr, DecidableEq

/-- Lookup `db["user"].find_one` by email. -/
def findUserByEmail (s : Store) (email : String) : Option User :=
  s.users.find? (fun u => u.email == email)

/-- Lookup `db["user"].find_one` by id (`ObjectId(uid)` round trip). -/
def findUserById (s : Store) (uid : Nat) : Option User :=
  s.users.find? (fun u => u.id == uid)

/-- Lookup `db["session"].find_one` by token. -/
def findSession (s : Store) (token : String) : Option Session :=
  s.sessions.find? (fun se => se.token == token)

/-- Read `user.get("plan", "free")`. -/
def getPlan (u : User) : String :=
  u.plan.getD "free"

/-- Table `PLATFORM_LIMITS.get(plan)` (src/main.py lines 61-66): a dict lookup
returning `None` both for the `ultra_pro` unlimited sentinel and for any
key absent from the table. -/
def PLATFORM_LIMITS : String → Option Nat
  | "free" => some 4
  | "mid_pro" => some 16
  | "pro" => some 50
  | _ => none

/-- Hashing: `hash_password` (src/main.py lines 123-124) calls `hashlib.sha256`
(an external library).  Modelled from the spec: §4.1 contracts the hasher
to be a deterministic pure transform compared by direct digest equality,
so it is embedded as a deterministic tagging function. -/
def hash_password (pw : String) : String :=
  String.append "sha256:" pw

/-- Session issue: `create_session` (src/main.py lines 127-135) persists a session with
`created_at = now` and `expires_at = now + 7 days` and returns the token.
The `secrets.token_urlsafe(32)` entropy is the explicit `token` argument. -/
def create_session (user_id : Nat) (token : String) (now : Nat) (s : Store) :
    String × Store :=
  (token,
   { s with sessions := s.sessions ++
      [{ token := token, user_id := user_id, created_at := now,
         expires_at := some (now + 604800) }] })

/-- Python `str.split()` with no separator: split on runs of whitespace,
discarding empty pieces.  Embedded on the character list (splitting at
every whitespace character and dropping the empty pieces is equivalent to
splitting on runs). -/
def pySplit (s : String) : List String :=
  ((s.toList.splitOnP Char.isWhitespace).map (fun cs => String.mk cs)).filter
    (fun p => p ≠ "")

/-- Python `str.lower()`, embedded on the character list. -/
def pyLower (s : String) : String :=
  String.mk (s.toList.map Char.toLower)

/-- The token-resolution tail of `get_user_from_token`
(src/main.py lines 145-153): session lookup, expiry check, user load. -/
def resolve_token (token : String) (now : Nat) (s : Store) : Except Err User :=
  match findSession s token with
  | none => .error ⟨401, "Invalid token"⟩
  | some sess =>
    -- `sess.get("expires_at") and sess["expires_at"] < now`: a datetime is
    -- always truthy, so the guard is a None-presence check.
    let loadUser : Except Err User :=
      match findUserById s sess.user_id with
      | none => .error ⟨401, "User not found"⟩
      | some u => .ok u
    match sess.expires_at with
    | some e => if e < now then .error ⟨401, "Session expired"⟩ else loadUser
    | none => loadUser

/-- Auth resolver: `get_user_from_token` (src/main.py lines 138-153).  `authorization` is
`none` when the header is absent; Python `if not authorization` is also
taken when the header is present but the empty string. -/
def get_user_from_token (authorization : Option String) (now : Nat)
    (s : Store) : Except Err User :=
  match authorization with
  | none => .error ⟨401, "Missing Authorization header"⟩
  | some auth =>
    if auth = "" then .error ⟨401, "Missing Authorization header"⟩
    else
      let parts := pySplit auth
      if parts.length ≠ 2 ∨ pyLower (parts.headD "") ≠ "bearer" then
        .error ⟨401, "Invalid Authorization header"⟩
      else
        resolve_token (parts.getD 1 "") now s

/-- Request body of `/auth/signup`. -/
structure SignupBody where
  name : String
  email : String
  password : String
deriving Repr, DecidableEq

/-- Request body of `/auth/login`. -/
structure LoginBody where
  email : String
  password : String
deriving Repr, DecidableEq

/-- Request body of `/upload`. -/
structure UploadBody where
  media_type : String
  caption : Option String
  platforms : List String
deriving Repr, DecidableEq

/-- Request body of `/ai/edit`. -/
structure AiEditBody where
  source_url : Option String
  operations : List String
deriving Repr, DecidableEq

/-- The `user` object of signup/login/me responses. -/
structure UserOut where
  id : Nat
  name : String
  email : String
  plan : String
deriving Repr, DecidableEq

/-- Success payload of `/auth/signup` and `/auth/login`. -/
structure AuthOut where
  token : String
  user : UserOut
deriving Repr, DecidableEq

/-- Handler `signup` (src/main.py lines 168-181).  `create_document("user", …)`
itself lives in database.py (not in src/); modelled from the spec: §2 has
the store insert the document and return its fresh id. -/
def signup (body : SignupBody) (token : String) (now : Nat) (s : Store) :
    Except Err AuthOut × Store :=
  match findUserByEmail s body.email with
  | some _ => (.error ⟨400, "Email already registered"⟩, s)
  | none =>
    let uid := s.nextId
    let u : User :=
      { id := uid, name := body.name, email := body.email,
        password_hash := hash_password body.password,
        plan := some "free", avatar_url := none }
    let s1 : Store := { s with users := s.users ++ [u], nextId := s.nextId + 1 }
    let ts := create_session uid token now s1
    (.ok { token := ts.1,
           user := { id := uid, name := body.name, email := body.email,
                     plan := "free" } }, ts.2)

/-- Handler `login` (src/main.py lines 183-189): one guard `not user or
user.get("password_hash") != hash_password(body.password)` raising the one
`Invalid credentials` failure. -/
def login (body : LoginBody) (token : String) (now : Nat) (s : Store) :
    Except Err AuthOut × Store :=
  match findUserByEmail s body.email with
  | none => (.error ⟨401, "Invalid credentials"⟩, s)
  | some u =>
    if u.password_hash ≠ hash_password body.password then
      (.error ⟨401, "Invalid credentials"⟩, s)
    else
      let ts := create_session u.id token now s
      (.ok { token := ts.1,
             user := { id := u.id, name := u.name, email := u.email,
                       plan := getPlan u } }, ts.2)

/-- Quota read `get_daily_count` (src/main.py lines 225-228): `count_documents` over
the UTC calendar-day window — it counts matching UploadLog rows. -/
def get_daily_count (s : Store) (uid : Nat) (now : Nat) : Nat :=
  let start := (now / 86400) * 86400
  let stop := start + 86400
  (s.uploadlogs.filter
    (fun l => l.user_id == uid && decide (start ≤ l.created_at)
              && decide (l.created_at < stop))).length

/-- The usage figure as the spec words it (§4.3 step 2): the sum of the
platform-list lengths of the UploadLog rows of the user in the UTC calendar-day
window.  Stated from the spec only, for comparison with `get_daily_count`. -/
def usedSpecPlatformUnits (s : Store) (uid : Nat) (now : Nat) : Nat :=
  let start := (now / 86400) * 86400
  let stop := start + 86400
  ((s.uploadlogs.filter
    (fun l => l.user_id == uid && decide (start ≤ l.created_at)
              && decide (l.created_at < stop))).map
    (fun l => l.platforms.length)).sum

/-- Success payload of `/uploads/stats`. -/
structure StatsOut where
  plan : String
  limit : Option Nat
  used : Nat
deriving Repr, DecidableEq

/-- Handler `uploads_stats` (src/main.py lines 230-235): a pure read. -/
def uploads_stats (u : User) (now : Nat) (s : Store) : StatsOut × Store :=
  let plan := getPlan u
  ({ plan := plan, limit := PLATFORM_LIMITS plan,
     used := get_daily_count s u.id now }, s)

/-- Success payload of `/upload`. -/
structure UploadOut where
  status : String
  log_id : Nat
deriving Repr, DecidableEq

/-- The 429 failure raised by `upload`:
`f"Daily limit exceeded. {used}/{limit} used."`. -/
def quotaErr (used limit : Nat) : Err :=
  ⟨429, String.append "Daily limit exceeded. "
        (String.append (toString used)
         (String.append "/" (String.append (toString limit) " used.")))⟩

/-- Handler `upload` (src/main.py lines 237-254): quota check, then persistence of
the UploadLog.  `create_document("uploadlog", …)` lives in database.py (not
in src/); modelled from the spec: §3 stamps the record with its creation
timestamp and returns a fresh id. -/
def upload (body : UploadBody) (u : User) (now : Nat) (s : Store) :
    Except Err UploadOut × Store :=
  let used := get_daily_count s u.id now
  let to_add := body.platforms.length
  let proceed : Except Err UploadOut × Store :=
    (.ok { status := "queued", log_id := s.nextId },
     { s with
        uploadlogs := s.uploadlogs ++
          [{ id := s.nextId, user_id := u.id, media_type := body.media_type,
             caption := body.caption, platforms := body.platforms,
             status := "queued", error := none, created_at := now }],
        nextId := s.nextId + 1 })
  match PLATFORM_LIMITS (getPlan u) with
  | some limit =>
    if used + to_add > limit then (.error (quotaErr used limit), s)
    else proceed
  | none => proceed

/-- Success payload of `/ai/edit`. -/
structure AiOut where
  job_id : Nat
  status : String
deriving Repr, DecidableEq

/-- Handler `ai_edit` (src/main.py lines 326-337): plan gate, then persistence of
the AiJob (insertion again modelled from the spec as for `upload`). -/
def ai_edit (body : AiEditBody) (u : User) (s : Store) :
    Except Err AiOut × Store :=
  if getPlan u ≠ "ultra_pro" then
    (.error ⟨403, "AI video editing is available for Ultra Pro only"⟩, s)
  else
    (.ok { job_id := s.nextId, status := "processing" },
     { s with
        aijobs := s.aijobs ++
          [{ id := s.nextId, user_id := u.id, source_url := body.source_url,
             operations := body.operations, status := "processing" }],
        nextId := s.nextId + 1 })

/-! ## Concrete fixtures used by closed theorems and witnesses -/

/-- The empty store. -/
def emptyStore : Store :=
  { users := [], sessions := [], uploadlogs := [], aijobs := [], nextId := 0 }

/-- A user on the `free` plan. -/
def uFree : User :=
  { id := 1, name := "Ann", email := "a@x.com",
    password_hash := hash_password "pw", plan := some "free",
    avatar_url := none }

/-- A user on the `ultra_pro` plan. -/
def uUltra : User :=
  { id := 2, name := "Bob", email := "b@x.com",
    password_hash := hash_password "pw2", plan := some "ultra_pro",
    avatar_url := none }

/-- An UploadLog of `uFree` targeting three platforms, created at epoch. -/
def logThree : UploadLog :=
  { id := 0, user_id := 1, media_type := "video", caption := none,
    platforms := ["instagram", "facebook", "tiktok"], status := "queued",
    error := none, created_at := 0 }

/-- Store holding `uFree` and the single three-platform log. -/
def storeOneLog : Store :=
  { users := [uFree], sessions := [], uploadlogs := [logThree], aijobs := [],
    nextId := 3 }

/-! ## Claims -/

/-- C1: the spec says the daily usage figure `used` equals the sum of the
platform-list lengths of the UploadLog rows of the user in the UTC day window
(one log targeting 3 platforms contributes 3 units).  The implemented
`get_daily_count` instead calls `count_documents`, counting rows: on a
store holding exactly one log of user 1 that targets 3 platforms inside
the window, the code computes `used = 1` while the spec figure is 3,
and `uploads/stats` reports that same 1. -/
theorem get_daily_count_counts_rows_not_platform_units :
    get_daily_count storeOneLog 1 0 = 1 ∧
    usedSpecPlatformUnits storeOneLog 1 0 = 3 ∧
    (uploads_stats uFree 0 storeOneLog).1.used = 1 := by
  refine ⟨rfl, rfl, rfl⟩

/-- C9: `uploads/stats` is a pure read — it leaves the store unchanged, so
a repeated call with no intervening upload returns the identical
plan/limit/used triple. -/
theorem uploads_stats_idempotent (u : User) (now : Nat) (s : Store) :
    (uploads_stats u now s).2 = s ∧
    uploads_stats u now ((uploads_stats u now s).2) = uploads_stats u now s :=
  ⟨rfl, rfl⟩

/-- C6 counterexample: the claim classifies every present-but-malformed
`Authorization` header as `MalformedCredential` (the
`Invalid Authorization header` failure).  The empty string is a present
header that does not split into two tokens, yet the Python
`if not authorization` truthiness test fires first and the code returns
the missing-header `Unauthenticated` failure instead. -/
theorem empty_auth_header_is_reported_missing :
    (pySplit "").length ≠ 2 ∧
    get_user_from_token (some "") 0 emptyStore =
      .error ⟨401, "Missing Authorization header"⟩ ∧
    get_user_from_token (some "") 0 emptyStore ≠
      .error ⟨401, "Invalid Authorization header"⟩ := by
  refine ⟨by decide, rfl, ?_⟩
  intro h
  rw [show get_user_from_token (some "") 0 emptyStore =
        .error ⟨401, "Missing Authorization header"⟩ from rfl] at h
  exact absurd (Except.error.inj h) (by decide)

/-- C6 (amended): a missing or empty `Authorization` header fails with the
missing-header `Unauthenticated` error; a nonempty header that does not
split into exactly two whitespace-separated tokens, or whose first token
is not case-insensitively `bearer`, fails with the
`MalformedCredential` (`Invalid Authorization header`) error; both carry
HTTP status 401 yet are internally distinguishable. -/
theorem bearer_header_parsing (auth : Option String) (now : Nat) (s : Store) :
    ((auth = none ∨ auth = some "") →
      get_user_from_token auth now s =
        .error ⟨401, "Missing Authorization header"⟩) ∧
    (∀ a, auth = some a → a ≠ "" →
      ((pySplit a).length ≠ 2 ∨ pyLower ((pySplit a).headD "") ≠ "bearer") →
      get_user_from_token auth now s =
        .error ⟨401, "Invalid Authorization header"⟩) ∧
    (⟨401, "Missing Authorization header"⟩ : Err).status = 401 ∧
    (⟨401, "Invalid Authorization header"⟩ : Err).status = 401 ∧
    (⟨401, "Missing Authorization header"⟩ : Err) ≠
      ⟨401, "Invalid Authorization header"⟩ := by
  refine ⟨?_, ?_, rfl, rfl, by decide⟩
  · rintro (rfl | rfl)
    · rfl
    · rfl
  · rintro a rfl ha hbad
    simp only [get_user_from_token, if_neg ha]
    rw [if_pos]
    exact hbad

/-- C6 witness: a present header with a non-bearer scheme is rejected as
malformed. -/
theorem bearer_header_parsing_witness :
    get_user_from_token (some "Token abc") 0 emptyStore =
      .error ⟨401, "Invalid Authorization header"⟩ := by
  exact (bearer_header_parsing (some "Token abc") 0 emptyStore).2.1
    "Token abc" rfl (by decide) (Or.inr (by decide))

/-- An upload request targeting five platforms. -/
def bodyFive : UploadBody :=
  { media_type := "video", caption := none,
    platforms := ["instagram", "facebook", "tiktok", "x", "threads"] }

/-- C2: the plan-limit table is free=4, mid_pro=16, pro=50,
ultra_pro=unlimited; an upload under the unbounded sentinel is accepted
unconditionally, and under a finite limit it is rejected with the 429
quota failure carrying the current `used` and `limit` exactly when
`used + requested_platform_count > limit`, accepted otherwise. -/
theorem upload_quota_enforcement (u : User) (body : UploadBody) (now : Nat)
    (s : Store) :
    PLATFORM_LIMITS "free" = some 4 ∧ PLATFORM_LIMITS "mid_pro" = some 16 ∧
    PLATFORM_LIMITS "pro" = some 50 ∧ PLATFORM_LIMITS "ultra_pro" = none ∧
    (PLATFORM_LIMITS (getPlan u) = none →
      (upload body u now s).1 = .ok { status := "queued", log_id := s.nextId }) ∧
    ∀ l, PLATFORM_LIMITS (getPlan u) = some l →
      ((get_daily_count s u.id now + body.platforms.length > l →
        (upload body u now s).1 =
          .error (quotaErr (get_daily_count s u.id now) l)) ∧
       (get_daily_count s u.id now + body.platforms.length ≤ l →
        (upload body u now s).1 =
          .ok { status := "queued", log_id := s.nextId })) := by
  refine ⟨rfl, rfl, rfl, rfl, ?_, ?_⟩
  · intro h
    simp only [upload, h]
  · intro l h
    constructor
    · intro hgt
      simp only [upload, h, if_pos hgt]
    · intro hle
      simp only [upload, h, if_neg (Nat.not_lt.mpr hle)]

/-- C2 witness: a free-plan user with no usage requesting five platforms
is rejected with the quota failure carrying used=0 and limit=4. -/
theorem upload_quota_enforcement_witness :
    (upload bodyFive uFree 0 emptyStore).1 = .error (quotaErr 0 4) := by
  exact ((upload_quota_enforcement uFree bodyFive 0 emptyStore).2.2.2.2.2
    4 rfl).1 (by decide)

/-- C5: every failing login — unknown email or digest mismatch alike —
returns the one identical `Invalid credentials` failure and leaves the
store unchanged, so the two failure modes are observationally equal. -/
theorem login_failure_uniform (body : LoginBody) (tok : String) (now : Nat)
    (s : Store)
    (h : findUserByEmail s body.email = none ∨
         ∃ u, findUserByEmail s body.email = some u ∧
              u.password_hash ≠ hash_password body.password) :
    login body tok now s = (.error ⟨401, "Invalid credentials"⟩, s) := by
  rcases h with h | ⟨u, hu, hpw⟩
  · simp only [login, h]
  · simp only [login, hu, if_pos hpw]

/-- C5 witness: logging in with an email absent from the store fails with
`Invalid credentials`. -/
theorem login_failure_uniform_witness :
    login { email := "ghost@x.com", password := "pw" } "t" 0 emptyStore =
      (.error ⟨401, "Invalid credentials"⟩, emptyStore) :=
  login_failure_uniform { email := "ghost@x.com", password := "pw" } "t" 0
    emptyStore (Or.inl rfl)

/-- C7: `ai/edit` is Forbidden (403) for every plan other than
`ultra_pro`, and for an `ultra_pro` caller persists the AI-job record and
returns its id with status `processing`. -/
theorem ai_edit_ultra_pro_gate (body : AiEditBody) (u : User) (s : Store) :
    (getPlan u ≠ "ultra_pro" →
      ai_edit body u s =
        (.error ⟨403, "AI video editing is available for Ultra Pro only"⟩, s)) ∧
    (getPlan u = "ultra_pro" →
      ai_edit body u s =
        (.ok { job_id := s.nextId, status := "processing" },
         { s with
            aijobs := s.aijobs ++
              [{ id := s.nextId, user_id := u.id,
                 source_url := body.source_url,
                 operations := body.operations, status := "processing" }],
            nextId := s.nextId + 1 })) := by
  constructor
  · intro h
    simp only [ai_edit, if_pos h]
  · intro h
    simp only [ai_edit, h]
    simp

/-- C7 witness: an `ultra_pro` caller gets a `processing` job. -/
theorem ai_edit_ultra_pro_gate_witness :
    ai_edit { source_url := none, operations := [] } uUltra emptyStore =
      (.ok { job_id := 0, status := "processing" },
       { emptyStore with
          aijobs := [{ id := 0, user_id := 2, source_url := none,
                       operations := [], status := "processing" }],
          nextId := 1 }) := by
  exact (ai_edit_ultra_pro_gate { source_url := none, operations := [] }
    uUltra emptyStore).2 rfl

/-- C10: a rejected upload writes nothing — the store after the failure is
the store before it, so any later `uploads/stats` reads the same values
as before the rejected request. -/
theorem rejected_upload_leaves_store_unchanged (body : UploadBody) (u : User)
    (now : Nat) (s : Store) (e : Err)
    (h : (upload body u now s).1 = .error e) :
    (upload body u now s).2 = s ∧
    ∀ v t, uploads_stats v t ((upload body u now s).2) = uploads_stats v t s := by
  have hs : (upload body u now s).2 = s := by
    rcases hL : PLATFORM_LIMITS (getPlan u) with _ | l
    · simp only [upload, hL] at h
      cases h
    · simp only [upload, hL] at h ⊢
      split at h
      · simp_all
      · cases h
  exact ⟨hs, fun v t => by rw [hs]⟩

/-- C10 witness: the five-platform request of a free-plan user is rejected
and the (empty) store is unchanged. -/
theorem rejected_upload_leaves_store_unchanged_witness :
    (upload bodyFive uFree 0 emptyStore).2 = emptyStore := by
  exact (rejected_upload_leaves_store_unchanged bodyFive uFree 0 emptyStore
    (quotaErr 0 4) rfl).1

/-- Store holding only `uFree`. -/
def storeOneUser : Store :=
  { users := [uFree], sessions := [], uploadlogs := [], aijobs := [],
    nextId := 2 }

/-- An unexpired session owned by a user id matching no user record. -/
def danglingSession : Session :=
  { token := "tkn", user_id := 9, created_at := 0, expires_at := some 604800 }

/-- Store holding only `danglingSession`. -/
def storeDangling : Store :=
  { users := [], sessions := [danglingSession], uploadlogs := [], aijobs := [],
    nextId := 0 }

/-- C3: `create_session` returns its token and persists a session with
`created_at = now` and `expires_at = now + 7 days` (604800 s); resolving
that token yields the originating user at any instant `t` not strictly
after `expires_at`, and fails with the terminal `Session expired` failure
once `expires_at < t`. -/
theorem session_lifecycle (uid : Nat) (tok : String) (now t : Nat) (s : Store)
    (u : User)
    (hfresh : findSession s tok = none)
    (huser : findUserById s uid = some u) :
    (create_session uid tok now s).1 = tok ∧
    findSession (create_session uid tok now s).2 tok =
      some { token := tok, user_id := uid, created_at := now,
             expires_at := some (now + 604800) } ∧
    (t ≤ now + 604800 →
      resolve_token tok t (create_session uid tok now s).2 = .ok u) ∧
    (now + 604800 < t →
      resolve_token tok t (create_session uid tok now s).2 =
        .error ⟨401, "Session expired"⟩) := by
  have husers : findUserById (create_session uid tok now s).2 uid = some u :=
    huser
  have hfind : findSession (create_session uid tok now s).2 tok =
      some { token := tok, user_id := uid, created_at := now,
             expires_at := some (now + 604800) } := by
    unfold findSession at hfresh ⊢
    unfold create_session
    simp only [List.find?_append, hfresh, Option.none_or]
    simp
  refine ⟨rfl, hfind, ?_, ?_⟩
  · intro ht
    simp only [resolve_token, hfind, husers, if_neg (Nat.not_lt.mpr ht)]
  · intro ht
    simp only [resolve_token, hfind, if_pos ht]

/-- C3 witness: on a one-user store, the session created at time 0 is
expired at t = 700000 > 604800. -/
theorem session_lifecycle_witness :
    resolve_token "tkn" 700000 (create_session 1 "tkn" 0 storeOneUser).2 =
      .error ⟨401, "Session expired"⟩ :=
  (session_lifecycle 1 "tkn" 0 700000 storeOneUser uFree rfl rfl).2.2.2
    (by decide)

/-- C8: a token whose session exists and is unexpired but whose owning
user id matches no user record resolves to the `User not found`
unauthenticated failure. -/
theorem dangling_session_unauthenticated (tok : String) (now : Nat) (s : Store)
    (sess : Session)
    (hs : findSession s tok = some sess)
    (hexp : ∀ e, sess.expires_at = some e → ¬ e < now)
    (hu : findUserById s sess.user_id = none) :
    resolve_token tok now s = .error ⟨401, "User not found"⟩ := by
  simp only [resolve_token, hs, hu]
  rcases he : sess.expires_at with _ | e
  · rfl
  · simp only [he, if_neg (hexp e he)]

/-- C8 witness: the dangling-session store resolves its token to the
`User not found` failure. -/
theorem dangling_session_unauthenticated_witness :
    resolve_token "tkn" 0 storeDangling = .error ⟨401, "User not found"⟩ :=
  dangling_session_unauthenticated "tkn" 0 storeDangling danglingSession rfl
    (fun e _ => Nat.not_lt_zero e) rfl

/-- C4: a signup with a fresh email creates a `free`-plan user, and a
login with the same email and password then succeeds — the stored digest
equals the recomputed one because the hash is deterministic — yielding a
user whose plan is `free`. -/
theorem signup_login_roundtrip (body : SignupBody) (tok1 tok2 : String)
    (now1 now2 : Nat) (s : Store)
    (hfresh : findUserByEmail s body.email = none) :
    ∃ out1 s1, signup body tok1 now1 s = (.ok out1, s1) ∧
      out1.user.plan = "free" ∧
      ∃ out2 s2,
        login { email := body.email, password := body.password } tok2 now2 s1 =
          (.ok out2, s2) ∧
        out2.user.plan = "free" := by
  have hsign : signup body tok1 now1 s =
      (.ok { token := tok1,
             user := { id := s.nextId, name := body.name, email := body.email,
                       plan := "free" } },
       { users := s.users ++
          [{ id := s.nextId, name := body.name, email := body.email,
             password_hash := hash_password body.password, plan := some "free",
             avatar_url := none }],
         sessions := s.sessions ++
          [{ token := tok1, user_id := s.nextId, created_at := now1,
             expires_at := some (now1 + 604800) }],
         uploadlogs := s.uploadlogs, aijobs := s.aijobs,
         nextId := s.nextId + 1 }) := by
    simp only [signup, create_session, hfresh]
  have hfind : findUserByEmail
      { users := s.users ++
          [{ id := s.nextId, name := body.name, email := body.email,
             password_hash := hash_password body.password, plan := some "free",
             avatar_url := none }],
        sessions := s.sessions ++
          [{ token := tok1, user_id := s.nextId, created_at := now1,
             expires_at := some (now1 + 604800) }],
        uploadlogs := s.uploadlogs, aijobs := s.aijobs,
        nextId := s.nextId + 1 } body.email =
      some { id := s.nextId, name := body.name, email := body.email,
             password_hash := hash_password body.password, plan := some "free",
             avatar_url := none } := by
    unfold findUserByEmail at hfresh ⊢
    simp only [List.find?_append, hfresh, Option.none_or]
    simp
  refine ⟨{ token := tok1,
            user := { id := s.nextId, name := body.name, email := body.email,
                      plan := "free" } },
          _, hsign, rfl,
          { token := tok2,
            user := { id := s.nextId, name := body.name, email := body.email,
                      plan := "free" } },
          { users := s.users ++
              [{ id := s.nextId, name := body.name, email := body.email,
                 password_hash := hash_password body.password,
                 plan := some "free", avatar_url := none }],
            sessions := (s.sessions ++
              [{ token := tok1, user_id := s.nextId, created_at := now1,
                 expires_at := some (now1 + 604800) }]) ++
              [{ token := tok2, user_id := s.nextId, created_at := now2,
                 expires_at := some (now2 + 604800) }],
            uploadlogs := s.uploadlogs, aijobs := s.aijobs,
            nextId := s.nextId + 1 },
          ?_, rfl⟩
  simp only [login, create_session, hfind, getPlan, Option.getD_some]
  simp

/-- C4 witness: signing up `a@x.com` on the empty store then logging in
with the same credentials succeeds with plan `free` both times. -/
theorem signup_login_roundtrip_witness :
    ∃ out1 s1,
      signup { name := "Ann", email := "a@x.com", password := "pw" } "t1" 0
        emptyStore = (.ok out1, s1) ∧
      out1.user.plan = "free" ∧
      ∃ out2 s2,
        login { email := "a@x.com", password := "pw" } "t2" 5 s1 =
          (.ok out2, s2) ∧
        out2.user.plan = "free" :=
  signup_login_roundtrip { name := "Ann", email := "a@x.com", password := "pw" }
    "t1" "t2" 0 5 emptyStore rfl

end SocialHub
